import Mathlib

/-!
Verification of the embedding-service adaptation layer
(src/embedding-service/main.py).

Shallow embedding conventions:
- The external SentenceTransformer model is an opaque collaborator; it is
  modelled as a `Model` record holding a deterministic per-text encode
  function and the device string it is bound to.  The process-wide
  `model: Optional[SentenceTransformer]` global becomes an explicit
  `Option Model` argument.
- Machine floats in embedding payloads are modelled as rationals.
- A raised `fastapi.HTTPException` is modelled by the `Except` error
  branch carrying an `HTTPException` record.  In Python,
  `fastapi.HTTPException` subclasses `Exception`, so the blanket
  `except Exception` clauses in the route handlers catch it; the
  embedding reproduces that control flow literally.
- Calls into the model (`model.encode`) are observable: each operation
  also returns the list of inference calls it made, so that properties
  like "no inference is performed" and "one batch call, not two single
  calls" are statable.
- Wall-clock fields (`processing_time_ms`) are real time and are omitted
  from the embedded responses.
-/

/-- The message and status of a raised HTTPException
(fastapi / starlette semantics). -/
structure HTTPException where
  status_code : Nat
  detail : String
deriving Repr, DecidableEq

/-- Python `str(e)` on a starlette HTTPException renders as
`"{status_code}: {detail}"`. -/
def HTTPException.str (e : HTTPException) : String :=
  toString e.status_code ++ ": " ++ e.detail

/-- The loaded SentenceTransformer handle: a deterministic per-text
encoder (already L2-normalizing, per `normalize_embeddings=True`) and
the device string the handle reports via `str(model.device)`. -/
structure Model where
  encode : String → List ℚ
  device : String

/-- One observable inference call against the model handle:
`model.encode` on a single string or on a list of strings. -/
inductive ModelCall where
  | single (text : String)
  | batch (texts : List String)
deriving Repr, DecidableEq

/-- Configuration constant `MODEL_NAME` (default value of the
`EMBEDDING_MODEL` environment variable), main.py line 26. -/
def MODEL_NAME : String := "BAAI/bge-large-en-v1.5"

/-- Configuration constant `EMBEDDING_DIMENSION`, main.py line 27. -/
def EMBEDDING_DIMENSION : Nat := 1024

/-- Request body of POST /embed, main.py lines 36-41. -/
structure EmbedRequest where
  text : String
  instruction : Option String
deriving Repr, DecidableEq

/-- Request body of POST /embed/batch, main.py lines 44-49. -/
structure EmbedBatchRequest where
  texts : List String
  instruction : Option String
deriving Repr, DecidableEq

/-- Response body of POST /embed, main.py lines 52-56
(processing_time_ms omitted: wall clock). -/
structure EmbedResponse where
  embedding : List ℚ
  dimension : Nat
  model : String
deriving Repr, DecidableEq

/-- Response body of POST /embed/batch, main.py lines 59-64
(processing_time_ms omitted: wall clock). -/
structure EmbedBatchResponse where
  embeddings : List (List ℚ)
  dimension : Nat
  count : Nat
  model : String
deriving Repr, DecidableEq

/-- Response body of GET /health, main.py lines 67-73. -/
structure HealthResponse where
  status : String
  model : String
  dimension : Nat
  device : String
  gpu_available : Bool
  gpu_name : Option String
deriving Repr, DecidableEq

/-- Request body of POST /similarity, main.py lines 76-78. -/
structure SimilarityRequest where
  text1 : String
  text2 : String
deriving Repr, DecidableEq

/-- Response body of POST /similarity, main.py lines 81-83
(processing_time_ms omitted: wall clock). -/
structure SimilarityResponse where
  similarity : ℚ
deriving Repr, DecidableEq

/-- Text preparation for a single text, main.py lines 150-151:
`if instruction: text = f"..."` where the f-string places the
instruction, a colon, a space, then the text.  Python truthiness makes
both `None` and the empty string skip the prefix. -/
def prepare (text : String) (instruction : Option String) : String :=
  match instruction with
  | some ins => if ins = "" then text else ins ++ ": " ++ text
  | none => text

/-- Text preparation for a batch, main.py lines 163-164: the same
truthiness test on the shared instruction, then a list comprehension
applying the prefix to every element. -/
def prepareBatch (texts : List String) (instruction : Option String) : List String :=
  match instruction with
  | some ins => if ins = "" then texts else texts.map (fun t => ins ++ ": " ++ t)
  | none => texts

/-- `get_embedding`, main.py lines 144-154: raise HTTPException(503,
"Model not loaded") when the handle is absent, otherwise prepare the
text and encode it.  The second component records the inference calls
made. -/
def get_embedding (model : Option Model) (text : String)
    (instruction : Option String) :
    Except HTTPException (List ℚ) × List ModelCall :=
  match model with
  | none => (.error ⟨503, "Model not loaded"⟩, [])
  | some m =>
    let t := prepare text instruction
    (.ok (m.encode t), [ModelCall.single t])

/-- `get_embeddings_batch`, main.py lines 157-173: raise
HTTPException(503, "Model not loaded") when the handle is absent,
otherwise prepare the texts and encode the list in one call (internal
sub-batching via `batch_size=min(len(texts), MAX_BATCH_SIZE)` is not
observable in the result). -/
def get_embeddings_batch (model : Option Model) (texts : List String)
    (instruction : Option String) :
    Except HTTPException (List (List ℚ)) × List ModelCall :=
  match model with
  | none => (.error ⟨503, "Model not loaded"⟩, [])
  | some m =>
    let ts := prepareBatch texts instruction
    (.ok (ts.map m.encode), [ModelCall.batch ts])

/-- Route handler for POST /embed, main.py lines 198-215.  The `try`
block wraps the `get_embedding` call; `except Exception` catches every
exception — including the HTTPException(503) raised inside
`get_embedding`, since fastapi's HTTPException subclasses Exception —
and re-raises HTTPException(500, str(e)). -/
def embed_text (model : Option Model) (req : EmbedRequest) :
    Except HTTPException EmbedResponse × List ModelCall :=
  match get_embedding model req.text req.instruction with
  | (.ok embedding, calls) =>
    (.ok { embedding := embedding, dimension := embedding.length,
           model := MODEL_NAME }, calls)
  | (.error e, calls) => (.error ⟨500, e.str⟩, calls)

/-- Route handler for POST /embed/batch, main.py lines 218-242.  The
two size validations run before (outside) the `try` block, so their 400
conditions propagate untranslated; the `except Exception` clause again
re-wraps any exception from `get_embeddings_batch` — the 503 included —
as HTTPException(500, str(e)). -/
def embed_batch (model : Option Model) (req : EmbedBatchRequest) :
    Except HTTPException EmbedBatchResponse × List ModelCall :=
  if req.texts.length = 0 then
    (.error ⟨400, "texts list cannot be empty"⟩, [])
  else if req.texts.length > 100 then
    (.error ⟨400, "Maximum 100 texts per batch"⟩, [])
  else
    match get_embeddings_batch model req.texts req.instruction with
    | (.ok embeddings, calls) =>
      (.ok { embeddings := embeddings, dimension := EMBEDDING_DIMENSION,
             count := embeddings.length, model := MODEL_NAME }, calls)
    | (.error e, calls) => (.error ⟨500, e.str⟩, calls)

/-- `np.dot` on two equal-length vectors: sum of pointwise products. -/
def dot (a b : List ℚ) : ℚ := (List.zipWith (fun x y => x * y) a b).sum

/-- Python `round(x, 6)`: round half to even at the sixth decimal
place (banker's rounding), modelled over the rationals. -/
def roundHalfEven (x : ℚ) : ℤ :=
  if x - ⌊x⌋ < 1 / 2 then ⌊x⌋
  else if x - ⌊x⌋ > 1 / 2 then ⌊x⌋ + 1
  else if ⌊x⌋ % 2 = 0 then ⌊x⌋ else ⌊x⌋ + 1

/-- Rounding to six decimal places via `roundHalfEven`. -/
def round6 (x : ℚ) : ℚ := (roundHalfEven (x * 1000000) : ℚ) / 1000000

/-- Route handler for POST /similarity, main.py lines 245-265: one
batch call `get_embeddings_batch([text1, text2])` with the instruction
argument left at its default None, dot product of the two returned
embeddings, result rounded to 6 decimal places.  The same
`except Exception` re-wrapping applies to the 503. -/
def compute_similarity (model : Option Model) (req : SimilarityRequest) :
    Except HTTPException SimilarityResponse × List ModelCall :=
  match get_embeddings_batch model [req.text1, req.text2] none with
  | (.ok embeddings, calls) =>
    (.ok { similarity := round6 (dot (embeddings.getD 0 []) (embeddings.getD 1 [])) },
     calls)
  | (.error e, calls) => (.error ⟨500, e.str⟩, calls)

/-- Route handler for GET /health, main.py lines 176-195.  The cuda
availability flag and cuda device name are environment facts, passed as
parameters. -/
def health_check (model : Option Model) (cuda_available : Bool)
    (cuda_device_name : String) : HealthResponse :=
  match model with
  | some m =>
    { status := "healthy", model := MODEL_NAME,
      dimension := EMBEDDING_DIMENSION, device := m.device,
      gpu_available := cuda_available,
      gpu_name := if cuda_available then some cuda_device_name else none }
  | none =>
    { status := "loading", model := MODEL_NAME,
      dimension := EMBEDDING_DIMENSION, device := "unknown",
      gpu_available := cuda_available, gpu_name := none }

/-- A concrete model handle used to instantiate theorems: it encodes
every text to the 1024-dimensional zero vector and reports device
"cpu". -/
def mConst : Model :=
  { encode := fun _ => List.replicate 1024 0, device := "cpu" }

/-- A concrete model handle whose encoder returns one-dimensional
vectors, exercising the paths that do not depend on the model's real
dimension. -/
def mShort : Model := { encode := fun _ => [0], device := "cpu" }

/-- Batch preparation is the elementwise single-text preparation. -/
theorem prepareBatch_map (texts : List String) (ins : Option String) :
    prepareBatch texts ins = texts.map (fun t => prepare t ins) := by
  cases ins with
  | none => simp [prepareBatch, prepare]
  | some s =>
    by_cases h : s = "" <;> simp [prepareBatch, prepare, h]

/-- The dot product is symmetric. -/
theorem dot_comm (a b : List ℚ) : dot a b = dot b a := by
  unfold dot
  rw [List.zipWith_comm_of_comm (fun x y => x * y) (fun x y => mul_comm x y)]

/-- Claim C1 (code evaluated at the failing input): with the model
handle absent, all three inference endpoints return an HTTP 500 — not
the 503 the claim states — whose detail is the stringified swallowed
HTTPException, and make no inference call.  The blanket
`except Exception` in each route handler catches the HTTPException(503)
raised by `get_embedding` / `get_embeddings_batch` and re-raises it as
a 500. -/
theorem not_loaded_requests_rewrapped_as_500 :
    embed_text none { text := "hello", instruction := none } =
      (.error ⟨500, "503: Model not loaded"⟩, []) ∧
    embed_batch none { texts := ["hello"], instruction := none } =
      (.error ⟨500, "503: Model not loaded"⟩, []) ∧
    compute_similarity none { text1 := "a", text2 := "b" } =
      (.error ⟨500, "503: Model not loaded"⟩, []) := by
  refine ⟨rfl, ?_, rfl⟩
  rfl

/-- Claim C2 counterexample: at the concrete request (text1 "a",
text2 "b") with a loaded model, the similarity endpoint's inference
trace is one batch call on the two-element list, not the two
independent single-text calls the claim states. -/
theorem compute_similarity_not_two_single_calls :
    (compute_similarity (some mConst) { text1 := "a", text2 := "b" }).2 =
      [ModelCall.batch ["a", "b"]] ∧
    (compute_similarity (some mConst) { text1 := "a", text2 := "b" }).2 ≠
      [ModelCall.single "a", ModelCall.single "b"] := by
  refine ⟨rfl, ?_⟩
  intro h
  simp [compute_similarity, get_embeddings_batch, prepareBatch] at h

/-- Helper: closed form of the similarity endpoint on a loaded
model. -/
theorem compute_similarity_eq (m : Model) (req : SimilarityRequest) :
    compute_similarity (some m) req =
      (.ok { similarity := round6 (dot (m.encode req.text1) (m.encode req.text2)) },
       [ModelCall.batch [req.text1, req.text2]]) := rfl

/-- Claim C2 amended: for every loaded model and request, the
similarity endpoint computes the two embeddings by one batch embedding
call on the two-element list [text1, text2] with no instruction prefix
applied, and returns the dot product of the two embeddings rounded to
6 decimal places. -/
theorem compute_similarity_one_batch_call (m : Model) (req : SimilarityRequest) :
    compute_similarity (some m) req =
      (.ok { similarity := round6 (dot (m.encode req.text1) (m.encode req.text2)) },
       [ModelCall.batch [req.text1, req.text2]]) :=
  compute_similarity_eq m req

/-- Helper: the empty-list branch of the batch endpoint. -/
theorem embed_batch_eq_of_empty (model : Option Model) (req : EmbedBatchRequest)
    (h : req.texts.length = 0) :
    embed_batch model req = (.error ⟨400, "texts list cannot be empty"⟩, []) := by
  simp [embed_batch, h]

/-- Helper: the over-100 branch of the batch endpoint. -/
theorem embed_batch_eq_of_over100 (model : Option Model) (req : EmbedBatchRequest)
    (h : 100 < req.texts.length) :
    embed_batch model req = (.error ⟨400, "Maximum 100 texts per batch"⟩, []) := by
  have h0 : req.texts.length ≠ 0 := by omega
  simp [embed_batch, h0, h]

/-- Helper: the successful branch of the batch endpoint for a loaded
model and an in-bounds texts list. -/
theorem embed_batch_eq_of_inbounds (m : Model) (req : EmbedBatchRequest)
    (h0 : req.texts.length ≠ 0) (hle : ¬ 100 < req.texts.length) :
    embed_batch (some m) req =
      (.ok { embeddings := (prepareBatch req.texts req.instruction).map m.encode,
             dimension := EMBEDDING_DIMENSION,
             count := ((prepareBatch req.texts req.instruction).map m.encode).length,
             model := MODEL_NAME },
       [ModelCall.batch (prepareBatch req.texts req.instruction)]) := by
  simp [embed_batch, h0, hle, get_embeddings_batch]

/-- Claim C3: the batch endpoint rejects an empty texts list with a
400, rejects more than 100 texts with a 400, and on exactly 100 texts
passes validation and proceeds to inference (with a loaded model it
answers successfully after one batch inference call). -/
theorem embed_batch_size_bounds (model : Option Model) (req : EmbedBatchRequest) :
    (req.texts.length = 0 →
      embed_batch model req = (.error ⟨400, "texts list cannot be empty"⟩, [])) ∧
    (100 < req.texts.length →
      embed_batch model req = (.error ⟨400, "Maximum 100 texts per batch"⟩, [])) ∧
    (∀ m, model = some m → req.texts.length = 100 →
      embed_batch model req =
        (.ok { embeddings := (prepareBatch req.texts req.instruction).map m.encode,
               dimension := EMBEDDING_DIMENSION,
               count := ((prepareBatch req.texts req.instruction).map m.encode).length,
               model := MODEL_NAME },
         [ModelCall.batch (prepareBatch req.texts req.instruction)])) := by
  refine ⟨embed_batch_eq_of_empty model req, embed_batch_eq_of_over100 model req, ?_⟩
  rintro m rfl h100
  exact embed_batch_eq_of_inbounds m req (by omega) (by omega)

/-- Witness for C3 at concrete inputs: the empty batch, a batch of 101
texts, and a batch of exactly 100 texts against the concrete model. -/
theorem embed_batch_size_bounds_witness :
    embed_batch none { texts := [], instruction := none } =
      (.error ⟨400, "texts list cannot be empty"⟩, []) ∧
    embed_batch none { texts := List.replicate 101 "x", instruction := none } =
      (.error ⟨400, "Maximum 100 texts per batch"⟩, []) ∧
    embed_batch (some mConst) { texts := List.replicate 100 "x", instruction := none } =
      (.ok { embeddings := (prepareBatch (List.replicate 100 "x") none).map mConst.encode,
             dimension := EMBEDDING_DIMENSION,
             count := ((prepareBatch (List.replicate 100 "x") none).map mConst.encode).length,
             model := MODEL_NAME },
       [ModelCall.batch (prepareBatch (List.replicate 100 "x") none)]) :=
  ⟨(embed_batch_size_bounds none { texts := [], instruction := none }).1 rfl,
   (embed_batch_size_bounds none
      { texts := List.replicate 101 "x", instruction := none }).2.1 (by simp),
   (embed_batch_size_bounds (some mConst)
      { texts := List.replicate 100 "x", instruction := none }).2.2 mConst rfl (by simp)⟩

/-- Indexing a mapped list below its length commutes with the map. -/
theorem getD_map_of_lt {α β : Type} (f : α → β) (dα : α) (dβ : β) :
    ∀ (l : List α) (i : Nat), i < l.length → (l.map f).getD i dβ = f (l.getD i dα) := by
  intro l
  induction l with
  | nil => intro i h; simp at h
  | cons x xs ih =>
    intro i h
    cases i with
    | zero => simp
    | succ n =>
      simp only [List.map_cons, List.getD_cons_succ]
      exact ih n (by simpa using h)

/-- Claim C4: for a loaded model whose encoder yields 1024-dimensional
vectors and a valid batch of n texts (1 ≤ n ≤ 100), the batch endpoint
returns exactly n embeddings, the i-th being the encoding of the i-th
(instruction-prepared) input text, each of dimension 1024, and the
response count field equals n. -/
theorem embed_batch_alignment (m : Model) (req : EmbedBatchRequest)
    (hdim : ∀ t, (m.encode t).length = 1024)
    (h1 : 1 ≤ req.texts.length) (h2 : req.texts.length ≤ 100) :
    ∃ resp, (embed_batch (some m) req).1 = .ok resp ∧
      resp.embeddings.length = req.texts.length ∧
      resp.count = req.texts.length ∧
      (∀ i, i < req.texts.length →
        resp.embeddings.getD i [] =
          m.encode (prepare (req.texts.getD i "") req.instruction)) ∧
      (∀ e ∈ resp.embeddings, e.length = 1024) := by
  have h0 : req.texts.length ≠ 0 := by omega
  have hle : ¬ 100 < req.texts.length := by omega
  refine ⟨{ embeddings := (prepareBatch req.texts req.instruction).map m.encode,
            dimension := EMBEDDING_DIMENSION,
            count := ((prepareBatch req.texts req.instruction).map m.encode).length,
            model := MODEL_NAME }, ?_, ?_, ?_, ?_, ?_⟩
  · simp [embed_batch, h0, hle, get_embeddings_batch]
  · simp [prepareBatch_map]
  · simp [prepareBatch_map]
  · intro i hi
    simp only [prepareBatch_map, List.map_map]
    have := getD_map_of_lt (fun t => m.encode (prepare t req.instruction)) "" []
      req.texts i hi
    simpa [Function.comp] using this
  · intro e he
    simp only [prepareBatch_map, List.map_map, List.mem_map] at he
    obtain ⟨t, _, rfl⟩ := he
    exact hdim _

/-- Witness for C4: a concrete two-text batch against the concrete
1024-dimensional model. -/
theorem embed_batch_alignment_witness :
    ∃ resp, (embed_batch (some mConst)
        { texts := ["a", "b"], instruction := none }).1 = .ok resp ∧
      resp.embeddings.length = (["a", "b"] : List String).length ∧
      resp.count = (["a", "b"] : List String).length ∧
      (∀ i, i < (["a", "b"] : List String).length →
        resp.embeddings.getD i [] =
          mConst.encode (prepare ((["a", "b"] : List String).getD i "") none)) ∧
      (∀ e ∈ resp.embeddings, e.length = 1024) :=
  embed_batch_alignment mConst { texts := ["a", "b"], instruction := none }
    (fun t => List.length_replicate 1024 0) (by simp) (by simp)

/-- Claim C5 counterexample: with the empty string supplied as the
instruction (present but empty) and text "cats", the text sent to the
model is "cats" unchanged — not ": cats" as the claim, read over every
instruction, requires.  Python `if instruction:` treats the empty
string as falsy and skips the prefix. -/
theorem prepare_empty_instruction_cex :
    (get_embedding (some mConst) "cats" (some "")).2 = [ModelCall.single "cats"] ∧
    (get_embedding (some mConst) "cats" (some "")).2 ≠
      [ModelCall.single ": cats"] := by
  refine ⟨rfl, ?_⟩
  intro h
  simp [get_embedding, prepare] at h

/-- Claim C5 amended: when a non-empty instruction is present, the
text sent to the model is exactly instruction, colon, space, text;
when no instruction is given, or the instruction is the empty string,
the text is sent unchanged; and a batch instruction is applied
uniformly to every element of the batch under the same rule. -/
theorem text_preparation (m : Model) (text ins : String) (texts : List String)
    (hne : ins ≠ "") :
    (get_embedding (some m) text (some ins)).2 =
      [ModelCall.single (ins ++ ": " ++ text)] ∧
    (get_embedding (some m) text none).2 = [ModelCall.single text] ∧
    (get_embedding (some m) text (some "")).2 = [ModelCall.single text] ∧
    (get_embeddings_batch (some m) texts (some ins)).2 =
      [ModelCall.batch (texts.map (fun t => ins ++ ": " ++ t))] ∧
    (get_embeddings_batch (some m) texts none).2 = [ModelCall.batch texts] ∧
    (get_embeddings_batch (some m) texts (some "")).2 = [ModelCall.batch texts] := by
  refine ⟨?_, rfl, rfl, ?_, rfl, rfl⟩
  · simp [get_embedding, prepare, hne]
  · simp [get_embeddings_batch, prepareBatch, hne]

/-- Witness for C5 at the spec's own example: instruction "retrieve"
on text "cats" sends "retrieve: cats"; no instruction sends "cats". -/
theorem text_preparation_witness :
    (get_embedding (some mConst) "cats" (some "retrieve")).2 =
      [ModelCall.single ("retrieve" ++ ": " ++ "cats")] ∧
    (get_embedding (some mConst) "cats" none).2 = [ModelCall.single "cats"] ∧
    (get_embedding (some mConst) "cats" (some "")).2 = [ModelCall.single "cats"] ∧
    (get_embeddings_batch (some mConst) ["cats"] (some "retrieve")).2 =
      [ModelCall.batch ((["cats"] : List String).map (fun t => "retrieve" ++ ": " ++ t))] ∧
    (get_embeddings_batch (some mConst) ["cats"] none).2 = [ModelCall.batch ["cats"]] ∧
    (get_embeddings_batch (some mConst) ["cats"] (some "")).2 =
      [ModelCall.batch ["cats"]] :=
  text_preparation mConst "cats" "retrieve" ["cats"] (by decide)

/-- Claim C6: the similarity result is symmetric in the two texts —
swapping text1 and text2 yields the same response (for any model state;
the dot product of the two per-text embeddings is commutative). -/
theorem similarity_symmetric (model : Option Model) (a b : String) :
    (compute_similarity model { text1 := a, text2 := b }).1 =
      (compute_similarity model { text1 := b, text2 := a }).1 := by
  cases model with
  | none => rfl
  | some m =>
    simp only [compute_similarity_eq]
    rw [dot_comm]

/-- Claim C7: the health endpoint reports status "loading" whenever
the model handle is absent; once the model is loaded it reports
"healthy" together with the device the handle is bound to and
dimension 1024; and the status is never anything but "healthy" or
"loading". -/
theorem health_check_status (model : Option Model) (cuda : Bool) (name : String) :
    (model = none → (health_check model cuda name).status = "loading") ∧
    (∀ m, model = some m →
      health_check model cuda name =
        { status := "healthy", model := MODEL_NAME, dimension := 1024,
          device := m.device, gpu_available := cuda,
          gpu_name := if cuda then some name else none }) ∧
    ((health_check model cuda name).status = "healthy" ∨
      (health_check model cuda name).status = "loading") := by
  refine ⟨?_, ?_, ?_⟩
  · rintro rfl; rfl
  · rintro m rfl; rfl
  · cases model with
    | none => exact Or.inr rfl
    | some m => exact Or.inl rfl

/-- Witness for C7: health before load at a concrete environment, and
health after load against the concrete model. -/
theorem health_check_status_witness :
    (health_check none true "NVIDIA A100").status = "loading" ∧
    health_check (some mConst) true "NVIDIA A100" =
      { status := "healthy", model := MODEL_NAME, dimension := 1024,
        device := mConst.device, gpu_available := true,
        gpu_name := if true then some "NVIDIA A100" else none } :=
  ⟨(health_check_status none true "NVIDIA A100").1 rfl,
   (health_check_status (some mConst) true "NVIDIA A100").2.1 mConst rfl⟩

/-- Claim C8: batch-size validation precedes the readiness check —
for an empty or over-100 texts list the batch endpoint returns a 400
regardless of the model state (including model absent, where the claim
rules out the 503), and makes no inference call. -/
theorem batch_validation_precedes_readiness (model : Option Model)
    (req : EmbedBatchRequest)
    (h : req.texts.length = 0 ∨ 100 < req.texts.length) :
    (∃ d, (embed_batch model req).1 = .error ⟨400, d⟩) ∧
    (embed_batch model req).2 = [] := by
  cases h with
  | inl h0 =>
    rw [embed_batch_eq_of_empty model req h0]
    exact ⟨⟨"texts list cannot be empty", rfl⟩, rfl⟩
  | inr h100 =>
    rw [embed_batch_eq_of_over100 model req h100]
    exact ⟨⟨"Maximum 100 texts per batch", rfl⟩, rfl⟩

/-- Witness for C8: the empty batch sent while the model is absent
gets the 400 and no inference call. -/
theorem batch_validation_precedes_readiness_witness :
    (∃ d, (embed_batch none { texts := [], instruction := none }).1 =
      .error ⟨400, d⟩) ∧
    (embed_batch none { texts := [], instruction := none }).2 = [] :=
  batch_validation_precedes_readiness none { texts := [], instruction := none }
    (Or.inl rfl)

/-- Claim C9: whenever the single-embed endpoint answers successfully
its dimension field equals the actual length of the returned embedding
(whatever the model produced), while a successful batch response's
dimension field is the constant 1024 regardless of the embeddings'
actual lengths. -/
theorem response_dimension_fields (model : Option Model)
    (ereq : EmbedRequest) (breq : EmbedBatchRequest) :
    (∀ r, (embed_text model ereq).1 = .ok r →
      r.dimension = r.embedding.length) ∧
    (∀ r, (embed_batch model breq).1 = .ok r → r.dimension = 1024) := by
  constructor
  · intro r hr
    cases model with
    | none => simp [embed_text, get_embedding] at hr
    | some m =>
      simp only [embed_text, get_embedding] at hr
      cases hr
      rfl
  · intro r hr
    by_cases h0 : breq.texts.length = 0
    · rw [embed_batch_eq_of_empty model breq h0] at hr
      cases hr
    · by_cases h100 : 100 < breq.texts.length
      · rw [embed_batch_eq_of_over100 model breq h100] at hr
        cases hr
      · cases model with
        | none => simp [embed_batch, h0, h100, get_embeddings_batch] at hr
        | some m =>
          rw [embed_batch_eq_of_inbounds m breq h0 h100] at hr
          cases hr
          rfl

/-- Witness for C9 against the one-dimensional model: the single
response reports dimension 1 (the actual length), the batch response
reports 1024 although its embeddings have length 1. -/
theorem response_dimension_fields_witness :
    ({ embedding := [(0 : ℚ)], dimension := 1, model := MODEL_NAME } :
        EmbedResponse).dimension =
      ({ embedding := [(0 : ℚ)], dimension := 1, model := MODEL_NAME } :
        EmbedResponse).embedding.length ∧
    ({ embeddings := [[(0 : ℚ)]], dimension := 1024, count := 1,
       model := MODEL_NAME } : EmbedBatchResponse).dimension = 1024 :=
  ⟨(response_dimension_fields (some mShort) { text := "a", instruction := none }
      { texts := ["a"], instruction := none }).1
      { embedding := [(0 : ℚ)], dimension := 1, model := MODEL_NAME } rfl,
   (response_dimension_fields (some mShort) { text := "a", instruction := none }
      { texts := ["a"], instruction := none }).2
      { embeddings := [[(0 : ℚ)]], dimension := 1024, count := 1,
        model := MODEL_NAME } rfl⟩

/-- Claim C10: before the model loads the health endpoint reports
device "unknown" and gpu_name None even when a GPU is available, and
gpu_name is non-None exactly when the model is loaded and a GPU is
available. -/
theorem gpu_name_reporting (model : Option Model) (cuda : Bool) (name : String) :
    (model = none →
      (health_check model cuda name).device = "unknown" ∧
      (health_check model cuda name).gpu_name = none) ∧
    ((health_check model cuda name).gpu_name ≠ none ↔
      (∃ m, model = some m) ∧ cuda = true) := by
  constructor
  · rintro rfl
    exact ⟨rfl, rfl⟩
  · cases model with
    | none =>
      simp [health_check]
    | some m =>
      cases cuda with
      | false => simp [health_check]
      | true => simp [health_check]

/-- Witness for C10: model absent with a GPU available still reports
device "unknown" and no gpu_name. -/
theorem gpu_name_reporting_witness :
    (health_check none true "NVIDIA H100").device = "unknown" ∧
    (health_check none true "NVIDIA H100").gpu_name = none :=
  (gpu_name_reporting none true "NVIDIA H100").1 rfl
